import Mathlib

/-!
Verification of the instantaneous-scheduling core of a multi-robot
task-allocation system (schedulers/sadcher.py, schedulers/initialize_schedulers.py,
benchmarking/benchmark_schedulers.py), shallowly embedded in Lean 4.

Machine floats are modelled as rationals; external collaborators (the trained
reward model, the bipartite matcher, the simulation stepping) are parameters of
the embedding, exactly as the spec treats them (capabilities, not code).
-/

namespace SadcherSpec

/-! ## Data model (spec section 3, sadcher.py) -/

/-- Task status, `{PENDING, ACTIVE, DONE}` in the simulation. -/
inductive TaskStatus : Type
  | pending
  | active
  | done
  deriving DecidableEq, Repr

/-- A task as seen by the scheduler: identity and mutable status.
The `incomplete` flag is derived (spec section 3: true until DONE). -/
structure Task : Type where
  task_id : Nat
  status : TaskStatus
  deriving DecidableEq, Repr

/-- Derived incomplete flag: true until the task is DONE (spec section 3). -/
def Task.incomplete (t : Task) : Bool := t.status != TaskStatus.done

/-- A robot: identity, availability flag, non-owning link to its current task. -/
structure Robot : Type where
  robot_id : Nat
  available : Bool
  current_task : Option Nat
  deriving DecidableEq, Repr

/-- The snapshot of the simulation that `calculate_robot_assignment` reads:
the robot list and the task list. -/
structure Sim : Type where
  robots : List Robot
  tasks : List Task
  deriving DecidableEq, Repr

/-- `available_robots = [robot for robot in sim.robots if robot.available]`
(sadcher.py line 46). -/
def available_robots (sim : Sim) : List Robot :=
  sim.robots.filter (fun r => r.available)

/-- `incomplete_tasks = [task for task in sim.tasks if task.incomplete and
task.status == "PENDING"]` (sadcher.py lines 47-49). -/
def pendingIncomplete (sim : Sim) : List Task :=
  sim.tasks.filter (fun t => t.incomplete && (t.status == TaskStatus.pending))

/-! ## Assignment filters

Modelled from the spec: `schedulers/filtering_assignments.py` (the definitions of
`filter_redundant_assignments` and `filter_overassignments`) is not under src/;
only their import and call sites (sadcher.py lines 7, 100-101) are.  The two
passes below follow spec section 4.4 word for word, with the spec's canonical
"lowest robot index wins" tie-break (section 9).  A matching result is the list
of selected (robot id, task id) pairs (the dict entries with value 1). -/

/-- Modelled from the spec: a pair is dropped by `filter_redundant_assignments`
when "the robot is already committed to that task from a prior decision point". -/
def notCommitted (sim : Sim) (p : Nat × Nat) : Bool :=
  ! sim.robots.any (fun r => r.robot_id == p.1 && r.current_task == some p.2)

/-- Modelled from the spec: "when the same task is claimed by more than one pair
... keep only the pair with lowest robot index". -/
def lowestRobotForTask (l : List (Nat × Nat)) (p : Nat × Nat) : Bool :=
  l.all (fun q => q.2 != p.2 || decide (p.1 ≤ q.1))

/-- Modelled from the spec: `filter_redundant_assignments` (spec section 4.4):
drop pairs whose robot is already committed to that task, then resolve
multiply-claimed tasks by lowest robot index. -/
def filter_redundant_assignments (sol : List (Nat × Nat)) (sim : Sim) :
    List (Nat × Nat) :=
  let l1 := sol.filter (notCommitted sim)
  l1.filter (lowestRobotForTask l1)

/-- External structural data used by the matcher and the overassignment filter:
the reward oracle, the cached bipartite matcher, each task's concurrency
capacity and the per-pair reward consulted when dropping overassignments.
The oracle and matcher are external capabilities (spec sections 2 and 6). -/
structure SchedulerCtx : Type where
  oracle : Sim → List (List ℚ)
  matcher : List (List ℚ) → Sim → List (Nat × Nat)
  capacity : Nat → Nat
  pairReward : Nat → Nat → ℚ

/-- Modelled from the spec: `q` is preferred over `p` for `p`'s task — same
task, and strictly higher reward (ties broken toward the lower robot index). -/
def preferredForTask (rwd : Nat → Nat → ℚ) (p q : Nat × Nat) : Bool :=
  (q.2 == p.2) &&
    (decide (rwd p.1 p.2 < rwd q.1 q.2) ||
      ((rwd q.1 q.2 == rwd p.1 p.2) && decide (q.1 < p.1)))

/-- Modelled from the spec: "keeping only the capacity-many highest-reward robot
pairs for that task": a pair survives when fewer than capacity-many pairs of the
solution are preferred over it for its task. -/
def withinCapacity (ctx : SchedulerCtx) (l : List (Nat × Nat)) (p : Nat × Nat) :
    Bool :=
  decide (l.countP (fun q => preferredForTask ctx.pairReward p q) < ctx.capacity p.2)

/-- Modelled from the spec: "if any robot appears in more than one pair ...
keep only its highest-reward pair" (ties broken toward the lower task id). -/
def bestForRobot (rwd : Nat → Nat → ℚ) (l : List (Nat × Nat)) (p : Nat × Nat) :
    Bool :=
  l.all (fun q => q.1 != p.1 || q.2 == p.2 ||
    !(decide (rwd p.1 p.2 < rwd q.1 q.2) ||
      ((rwd q.1 q.2 == rwd p.1 p.2) && decide (q.2 < p.2))))

/-- Modelled from the spec: `filter_overassignments` (spec section 4.4): enforce
each task's concurrency capacity, then deduplicate robots that appear in more
than one pair. -/
def filter_overassignments (ctx : SchedulerCtx) (sol : List (Nat × Nat)) :
    List (Nat × Nat) :=
  let l1 := sol.filter (withinCapacity ctx sol)
  l1.filter (bestForRobot ctx.pairReward l1)

/-! ## Idempotence machinery for the two filters -/

/-- A filtering pass of the shape used by both assignment filters: a first
predicate computed against the input solution, then a second predicate computed
against the survivors of the first. -/
def twoPass (f g : List α → α → Bool) (l : List α) : List α :=
  let l1 := l.filter (f l)
  l1.filter (g l1)

theorem twoPass_sublist (f g : List α → α → Bool) (l : List α) :
    List.Sublist (twoPass f g l) l :=
  List.Sublist.trans (List.filter_sublist _) (List.filter_sublist _)

theorem twoPass_idem (f g : List α → α → Bool)
    (hf : ∀ (l' l : List α) (a : α), List.Sublist l' l → f l a = true → f l' a = true)
    (hg : ∀ (l' l : List α) (a : α), List.Sublist l' l → g l a = true → g l' a = true)
    (l : List α) : twoPass f g (twoPass f g l) = twoPass f g l := by
  have hsub1 : List.Sublist (twoPass f g l) (l.filter (f l)) :=
    List.filter_sublist _
  have hmem : ∀ a ∈ twoPass f g l,
      a ∈ l.filter (f l) ∧ g (l.filter (f l)) a = true := by
    intro a ha
    have := List.mem_filter.mp ha
    exact ⟨this.1, this.2⟩
  have h1 : (twoPass f g l).filter (f (twoPass f g l)) = twoPass f g l := by
    apply List.filter_eq_self.mpr
    intro a ha
    have hin : a ∈ l.filter (f l) := (hmem a ha).1
    have hfa : f l a = true := (List.mem_filter.mp hin).2
    exact hf (twoPass f g l) l a (twoPass_sublist f g l) hfa
  show ((twoPass f g l).filter (f (twoPass f g l))).filter _ = twoPass f g l
  rw [h1]
  apply List.filter_eq_self.mpr
  intro a ha
  have hga : g (l.filter (f l)) a = true := (hmem a ha).2
  exact hg (twoPass f g l) (l.filter (f l)) a hsub1 hga

/-- Predicates given by `List.all` over the ambient list only get easier to
satisfy on a sublist. -/
theorem all_mono_sublist (p : α → Bool) (l' l : List α)
    (hsub : List.Sublist l' l) (h : l.all p = true) : l'.all p = true := by
  rw [List.all_eq_true] at h ⊢
  intro x hx
  exact h x (hsub.subset hx)

theorem filter_redundant_eq_twoPass (sol : List (Nat × Nat)) (sim : Sim) :
    filter_redundant_assignments sol sim =
      twoPass (fun _ p => notCommitted sim p) (fun l p => lowestRobotForTask l p)
        sol := rfl

theorem filter_over_eq_twoPass (ctx : SchedulerCtx) (sol : List (Nat × Nat)) :
    filter_overassignments ctx sol =
      twoPass (fun l p => withinCapacity ctx l p)
        (fun l p => bestForRobot ctx.pairReward l p) sol := rfl

/-- C10: `filter_redundant_assignments` and `filter_overassignments` are each
idempotent: for every simulation state, matcher-context and raw matching
result, applying either filter twice yields the same result as applying it
once.  (Filters modelled from spec section 4.4; their source file is not under
src/.) -/
theorem c10_filters_idempotent (ctx : SchedulerCtx) (sim : Sim)
    (sol : List (Nat × Nat)) :
    filter_redundant_assignments (filter_redundant_assignments sol sim) sim =
        filter_redundant_assignments sol sim ∧
      filter_overassignments ctx (filter_overassignments ctx sol) =
        filter_overassignments ctx sol := by
  constructor
  · simp only [filter_redundant_eq_twoPass]
    apply twoPass_idem
    · intro l' l a _ h
      exact h
    · intro l' l a hsub h
      unfold lowestRobotForTask at h ⊢
      exact all_mono_sublist _ l' l hsub h
  · simp only [filter_over_eq_twoPass]
    apply twoPass_idem
    · intro l' l a hsub h
      unfold withinCapacity at h ⊢
      rw [decide_eq_true_eq] at h ⊢
      exact Nat.lt_of_le_of_lt (hsub.countP_le _) h
    · intro l' l a hsub h
      unfold bestForRobot at h ⊢
      exact all_mono_sublist _ l' l hsub h

/-! ## Reward pipeline (sadcher.py lines 60-106, 174-175, 195-200) -/

/-- The clamping floor `1e-6` of `torch.clamp(..., min=1e-6)`. -/
def epsFloor : ℚ := 1 / 1000000

/-- The large negative constant `-1000` written into the sentinel columns. -/
def sentinelReward : ℚ := -1000

/-- Entry-wise clamp of one matrix row: `torch.clamp(x, min=1e-6)`. -/
def clampRow (r : List ℚ) : List ℚ := r.map (fun x => max epsFloor x)

/-- `predicted_reward = torch.clamp(predicted_reward_raw, min=1e-6)`
(sadcher.py line 68). -/
def clampMatrix (m : List (List ℚ)) : List (List ℚ) := m.map clampRow

/-- One row of `torch.clamp(torch.normal(predicted_reward, stddev), min=1e-6)`:
a draw of `normal(mean, stddev)` is `mean + stddev * z` with `z` the standard
normal draw for that entry, supplied by the ambient noise function. -/
def stochRow (stddev : ℚ) (f : Nat → ℚ) : Nat → List ℚ → List ℚ
  | _, [] => []
  | j, x :: xs => max epsFloor (x + stddev * f j) :: stochRow stddev f (j + 1) xs

/-- Entry-wise stochastic resampling of a matrix, one standard-normal draw
`noise i j` per entry (StochasticILSadcherScheduler.sample_rewards,
sadcher.py lines 195-200). -/
def stochMatrix (stddev : ℚ) (noise : Nat → Nat → ℚ) :
    Nat → List (List ℚ) → List (List ℚ)
  | _, [] => []
  | i, row :: rest => stochRow stddev (noise i) 0 row :: stochMatrix stddev noise (i + 1) rest

/-- Which `sample_rewards` runs: the deterministic base class passes the input
through unchanged (sadcher.py lines 174-175); the stochastic subclass redraws
every entry from a normal distribution centred on it and re-clamps
(lines 195-200).  The subclassing is the only difference between the variants. -/
inductive RewardSampling : Type
  | deterministic
  | stochastic (stddev : ℚ) (noise : Nat → Nat → ℚ)

/-- `sample_rewards` of the selected variant. -/
def sample_rewards : RewardSampling → List (List ℚ) → List (List ℚ)
  | RewardSampling.deterministic, m => m
  | RewardSampling.stochastic stddev noise, m => stochMatrix stddev noise 0 m

/-- `torch.cat((reward_start_end, predicted_reward, reward_start_end), dim=1)`
(sadcher.py lines 74-75): prepend and append a `-1000` sentinel column. -/
def addSentinels (m : List (List ℚ)) : List (List ℚ) :=
  m.map (fun row => sentinelReward :: (row ++ [sentinelReward]))

/-- An all-zeros matrix, `torch.zeros((n_robots, len(sim.tasks)))`
(sadcher.py line 56). -/
def zerosMatrix (nRows nCols : Nat) : List (List ℚ) :=
  List.replicate nRows (List.replicate nCols (0 : ℚ))

/-! ## calculate_robot_assignment (sadcher.py lines 42-106) -/

/-- Everything `calculate_robot_assignment` produces or touches: the reward
matrix and the Instantaneous Schedule it returns, the simulation state as left
behind by the call (the shortcut path mutates `robot.current_task`,
sadcher.py line 55), and whether the reward oracle (the trained model) and the
bipartite matcher were invoked on this call. -/
structure CalcResult : Type where
  reward : List (List ℚ)
  schedule : List (Nat × Nat)
  simOut : Sim
  invoked_oracle : Bool
  invoked_matcher : Bool
  deriving Repr

/-- `SadcherScheduler.calculate_robot_assignment` (sadcher.py lines 42-106).
If exactly one incomplete PENDING task remains, every available robot is
assigned to it, each such robot's `current_task` is set to it, and a zero
matrix is returned without touching oracle or matcher.  Otherwise the oracle's
raw rewards are clamped to `1e-6`, passed through `sample_rewards`, framed by
the two `-1000` sentinel columns, solved by the cached matcher, and the raw
matching is sanitized by the two assignment filters. -/
def calculate_robot_assignment (ctx : SchedulerCtx) (samp : RewardSampling)
    (sim : Sim) : CalcResult :=
  match pendingIncomplete sim with
  | [t] =>
      { reward := zerosMatrix sim.robots.length sim.tasks.length
        schedule := (available_robots sim).map (fun r => (r.robot_id, t.task_id))
        simOut := { robots := sim.robots.map (fun r =>
                      if r.available then { r with current_task := some t.task_id } else r)
                    tasks := sim.tasks }
        invoked_oracle := false
        invoked_matcher := false }
  | _ =>
      let full := addSentinels (sample_rewards samp (clampMatrix (ctx.oracle sim)))
      { reward := full
        schedule := filter_overassignments ctx
          (filter_redundant_assignments (ctx.matcher full sim) sim)
        simOut := sim
        invoked_oracle := true
        invoked_matcher := true }

/-! ## Reusable concrete inputs for witnesses and counterexamples -/

/-- A matcher context whose oracle produces one row `[0, 2]` for the single
robot; matcher, capacities and rewards are arbitrary concrete stubs. -/
def ctxOneRobot : SchedulerCtx :=
  { oracle := fun _ => [[0, 2]]
    matcher := fun _ _ => []
    capacity := fun _ => 1
    pairReward := fun _ _ => 0 }

/-- A snapshot whose single task is incomplete but ACTIVE (not PENDING):
exactly one incomplete task remains, yet the code's guard does not fire. -/
def simOneActive : Sim :=
  { robots := [{ robot_id := 0, available := true, current_task := none }]
    tasks := [{ task_id := 0, status := TaskStatus.active }] }

/-- A snapshot on the end-game path: only the end task (id 1) is still
incomplete and PENDING, and the one robot is available. -/
def simEndgame : Sim :=
  { robots := [{ robot_id := 0, available := true, current_task := none }]
    tasks := [{ task_id := 0, status := TaskStatus.done },
              { task_id := 1, status := TaskStatus.pending }] }

/-! ## C1: the end-game shortcut -/

/-- C1 counterexample: in `simOneActive` exactly one incomplete task remains,
yet `calculate_robot_assignment` takes the general path and invokes the reward
oracle, because the code's guard additionally requires the task to be PENDING
(sadcher.py lines 47-52) and this one is ACTIVE. -/
theorem c1_counterexample :
    (simOneActive.tasks.filter (fun t => t.incomplete)).length = 1 ∧
      (calculate_robot_assignment ctxOneRobot RewardSampling.deterministic
        simOneActive).invoked_oracle = true :=
  ⟨rfl, rfl⟩

/-- C1 (amended): for every snapshot in which exactly one task is both
incomplete and PENDING, `calculate_robot_assignment` assigns every currently
available robot to that task and returns without invoking the reward oracle or
the bipartite matcher. -/
theorem c1_endgame_shortcut (ctx : SchedulerCtx) (samp : RewardSampling)
    (sim : Sim) (t : Task) (h : pendingIncomplete sim = [t]) :
    (calculate_robot_assignment ctx samp sim).invoked_oracle = false ∧
      (calculate_robot_assignment ctx samp sim).invoked_matcher = false ∧
      (calculate_robot_assignment ctx samp sim).schedule =
        (available_robots sim).map (fun r => (r.robot_id, t.task_id)) := by
  unfold calculate_robot_assignment
  rw [h]
  exact ⟨rfl, rfl, rfl⟩

/-- C1 witness: on the concrete end-game snapshot the shortcut fires and the
single available robot is sent to the end task. -/
theorem c1_endgame_shortcut_witness :
    (calculate_robot_assignment ctxOneRobot RewardSampling.deterministic
        simEndgame).invoked_oracle = false ∧
      (calculate_robot_assignment ctxOneRobot RewardSampling.deterministic
        simEndgame).invoked_matcher = false ∧
      (calculate_robot_assignment ctxOneRobot RewardSampling.deterministic
        simEndgame).schedule =
        (available_robots simEndgame).map (fun r => (r.robot_id, 1)) :=
  c1_endgame_shortcut ctxOneRobot RewardSampling.deterministic simEndgame
    { task_id := 1, status := TaskStatus.pending } (by decide)

/-! ## C2: what the call commits to the simulation state -/

/-- C2 counterexample: on the end-game snapshot, `calculate_robot_assignment`
itself mutates the simulation state (the available robot's `current_task` link
is set, sadcher.py line 55) before any schedule is committed. -/
theorem c2_counterexample :
    (calculate_robot_assignment ctxOneRobot RewardSampling.deterministic
      simEndgame).simOut ≠ simEndgame := by
  decide

/-- C2 (amended): `calculate_robot_assignment` never mutates any task or any
robot's identity or availability, and on the general (oracle-invoking) path it
mutates nothing at all; only the end-game shortcut writes the available robots'
current-task links before returning. -/
theorem c2_no_commit_before_return (ctx : SchedulerCtx) (samp : RewardSampling)
    (sim : Sim) :
    (calculate_robot_assignment ctx samp sim).simOut.tasks = sim.tasks ∧
      (calculate_robot_assignment ctx samp sim).simOut.robots.map
          (fun r => (r.robot_id, r.available)) =
        sim.robots.map (fun r => (r.robot_id, r.available)) ∧
      ((calculate_robot_assignment ctx samp sim).invoked_oracle = true →
        (calculate_robot_assignment ctx samp sim).simOut = sim) := by
  unfold calculate_robot_assignment
  rcases hp : pendingIncomplete sim with _ | ⟨t, _ | ⟨t2, ts⟩⟩
  · exact ⟨rfl, rfl, fun _ => rfl⟩
  · refine ⟨rfl, ?_, ?_⟩
    · show (sim.robots.map _).map _ = _
      rw [List.map_map]
      apply List.map_congr_left
      intro r _
      by_cases hr : r.available <;> simp [hr]
    · intro hco
      exact Bool.noConfusion hco
  · exact ⟨rfl, rfl, fun _ => rfl⟩

/-- C2 witness: on the concrete general-path snapshot the call leaves the
simulation state untouched. -/
theorem c2_no_commit_before_return_witness :
    (calculate_robot_assignment ctxOneRobot RewardSampling.deterministic
      simOneActive).simOut = simOneActive :=
  (c2_no_commit_before_return ctxOneRobot RewardSampling.deterministic
    simOneActive).2.2 rfl

/-! ## C5 and C9: the clamping floor and the stochastic sampler -/

/-- An entry respects the strictly positive floor `1e-6`. -/
def entryOK (x : ℚ) : Bool := decide (epsFloor ≤ x)

/-- Every entry of the matrix respects the floor. -/
def matrixOK (m : List (List ℚ)) : Bool := m.all (fun row => row.all entryOK)

theorem all_entryOK_clampRow (r : List ℚ) : (clampRow r).all entryOK = true := by
  rw [List.all_eq_true]
  intro x hx
  rcases List.mem_map.mp hx with ⟨y, _, rfl⟩
  simp [entryOK, le_max_left]

theorem matrixOK_clampMatrix (m : List (List ℚ)) :
    matrixOK (clampMatrix m) = true := by
  rw [matrixOK, List.all_eq_true]
  intro row hrow
  rcases List.mem_map.mp hrow with ⟨r, _, rfl⟩
  exact all_entryOK_clampRow r

theorem all_entryOK_stochRow (stddev : ℚ) (f : Nat → ℚ) :
    ∀ (j : Nat) (r : List ℚ), (stochRow stddev f j r).all entryOK = true := by
  intro j r
  induction r generalizing j with
  | nil => rfl
  | cons x xs ih =>
    show (max epsFloor (x + stddev * f j) :: stochRow stddev f (j + 1) xs).all
      entryOK = true
    rw [List.all_cons, ih (j + 1), Bool.and_true]
    simp [entryOK, le_max_left]

theorem matrixOK_stochMatrix (stddev : ℚ) (noise : Nat → Nat → ℚ) :
    ∀ (i : Nat) (m : List (List ℚ)), matrixOK (stochMatrix stddev noise i m) = true := by
  intro i m
  induction m generalizing i with
  | nil => rfl
  | cons row rest ih =>
    show matrixOK (stochRow stddev (noise i) 0 row ::
      stochMatrix stddev noise (i + 1) rest) = true
    unfold matrixOK
    rw [List.all_cons, Bool.and_eq_true]
    exact ⟨all_entryOK_stochRow stddev (noise i) 0 row, ih (i + 1)⟩

theorem matrixOK_sample_clamp (samp : RewardSampling) (m : List (List ℚ)) :
    matrixOK (sample_rewards samp (clampMatrix m)) = true := by
  cases samp with
  | deterministic => exact matrixOK_clampMatrix m
  | stochastic stddev noise => exact matrixOK_stochMatrix stddev noise 0 _

/-- C5: whenever the matcher is invoked, the matrix it receives is the clamped,
sampled oracle output framed by the two sentinel columns, and every one of its
non-sentinel entries — the clamped, sampled entries — is at least `1e-6`; this
holds for the deterministic variant and for the stochastic variant at every
spread and every draw of the noise. -/
theorem c5_reward_floor (ctx : SchedulerCtx) (samp : RewardSampling) (sim : Sim)
    (h : (calculate_robot_assignment ctx samp sim).invoked_matcher = true) :
    (calculate_robot_assignment ctx samp sim).reward =
        addSentinels (sample_rewards samp (clampMatrix (ctx.oracle sim))) ∧
      matrixOK (sample_rewards samp (clampMatrix (ctx.oracle sim))) = true := by
  refine ⟨?_, matrixOK_sample_clamp samp (ctx.oracle sim)⟩
  unfold calculate_robot_assignment at h ⊢
  rcases hp : pendingIncomplete sim with _ | ⟨t, _ | ⟨t2, ts⟩⟩
  · rfl
  · rw [hp] at h
    exact Bool.noConfusion h
  · rfl

/-- C5 witness: concrete stochastic run (spread 3, all draws at -7) on the
general path; the raw oracle row `[0, 2]` reaches the matcher floor-clamped. -/
theorem c5_reward_floor_witness :
    (calculate_robot_assignment ctxOneRobot
        (RewardSampling.stochastic 3 (fun _ _ => -7)) simOneActive).reward =
        addSentinels (sample_rewards (RewardSampling.stochastic 3 (fun _ _ => -7))
          (clampMatrix (ctxOneRobot.oracle simOneActive))) ∧
      matrixOK (sample_rewards (RewardSampling.stochastic 3 (fun _ _ => -7))
        (clampMatrix (ctxOneRobot.oracle simOneActive))) = true :=
  c5_reward_floor ctxOneRobot (RewardSampling.stochastic 3 (fun _ _ => -7))
    simOneActive rfl

theorem stochRow_zero_spread (f : Nat → ℚ) :
    ∀ (j : Nat) (r : List ℚ), r.all entryOK = true → stochRow 0 f j r = r := by
  intro j r
  induction r generalizing j with
  | nil => intro _; rfl
  | cons x xs ih =>
    intro h
    rw [List.all_cons, Bool.and_eq_true] at h
    have hx : epsFloor ≤ x := by
      have := h.1
      rwa [entryOK, decide_eq_true_eq] at this
    show max epsFloor (x + 0 * f j) :: stochRow 0 f (j + 1) xs = x :: xs
    rw [zero_mul, add_zero, max_eq_right hx, ih (j + 1) h.2]

theorem stochMatrix_zero_spread (noise : Nat → Nat → ℚ) :
    ∀ (i : Nat) (m : List (List ℚ)), matrixOK m = true →
      stochMatrix 0 noise i m = m := by
  intro i m
  induction m generalizing i with
  | nil => intro _; rfl
  | cons row rest ih =>
    intro h
    rw [matrixOK, List.all_cons, Bool.and_eq_true] at h
    show stochRow 0 (noise i) 0 row :: stochMatrix 0 noise (i + 1) rest = row :: rest
    rw [stochRow_zero_spread (noise i) 0 row h.1, ih (i + 1) h.2]

/-- C9: on a matrix whose entries already respect the positive floor (as every
clamped oracle output does), the stochastic `sample_rewards` with stddev 0
returns exactly what the deterministic `sample_rewards` returns — the input
unchanged; and the whole of `calculate_robot_assignment` at stddev 0 coincides
with the deterministic variant, sampling being the only difference. -/
theorem c9_zero_spread (noise : Nat → Nat → ℚ) (m : List (List ℚ))
    (h : matrixOK m = true) :
    sample_rewards (RewardSampling.stochastic 0 noise) m =
        sample_rewards RewardSampling.deterministic m ∧
      sample_rewards RewardSampling.deterministic m = m ∧
      ∀ (ctx : SchedulerCtx) (sim : Sim),
        calculate_robot_assignment ctx (RewardSampling.stochastic 0 noise) sim =
          calculate_robot_assignment ctx RewardSampling.deterministic sim := by
  refine ⟨stochMatrix_zero_spread noise 0 m h, rfl, ?_⟩
  intro ctx sim
  unfold calculate_robot_assignment
  rcases hp : pendingIncomplete sim with _ | ⟨t, _ | ⟨t2, ts⟩⟩
  · rw [show sample_rewards (RewardSampling.stochastic 0 noise)
          (clampMatrix (ctx.oracle sim)) = clampMatrix (ctx.oracle sim) from
        stochMatrix_zero_spread noise 0 _ (matrixOK_clampMatrix _)]
    rfl
  · rfl
  · rw [show sample_rewards (RewardSampling.stochastic 0 noise)
          (clampMatrix (ctx.oracle sim)) = clampMatrix (ctx.oracle sim) from
        stochMatrix_zero_spread noise 0 _ (matrixOK_clampMatrix _)]
    rfl

/-- C9 witness: a concrete floor-respecting matrix passes through the
stddev-0 stochastic sampler unchanged. -/
theorem c9_zero_spread_witness :
    sample_rewards (RewardSampling.stochastic 0 (fun _ _ => 5)) [[(1 : ℚ)]] =
      [[(1 : ℚ)]] := by
  have hok : matrixOK [[(1 : ℚ)]] = true := by
    simp only [matrixOK, List.all_cons, List.all_nil, Bool.and_true, entryOK,
      decide_eq_true_eq, epsFloor]
    norm_num
  have h := c9_zero_spread (fun _ _ => 5) [[(1 : ℚ)]] hok
  rw [h.1, h.2.1]

/-! ## C6: the sentinel columns -/

theorem addSentinels_all_sentinel (m : List (List ℚ)) :
    (addSentinels m).all (fun row => (row.head? == some sentinelReward) &&
      (row.getLast? == some sentinelReward)) = true := by
  rw [List.all_eq_true]
  intro row hrow
  rcases List.mem_map.mp hrow with ⟨r, _, rfl⟩
  rw [Bool.and_eq_true]
  constructor
  · simp
  · rw [show sentinelReward :: (r ++ [sentinelReward]) =
        (sentinelReward :: r) ++ [sentinelReward] from rfl,
      List.getLast?_concat]
    simp

/-- C6 counterexample: on the end-game snapshot the scheduler produces the
all-zeros matrix `torch.zeros((n_robots, len(sim.tasks)))` (sadcher.py
line 56), whose first and last columns are 0, not a large negative value. -/
theorem c6_counterexample :
    ((calculate_robot_assignment ctxOneRobot RewardSampling.deterministic
      simEndgame).reward).all
        (fun row => row.head? == some sentinelReward) = false := by
  decide

/-- C6 (amended): in every reward matrix a scheduler passes to the matcher
(i.e. on every non-end-game decision point), the first and the last column
carry the large negative value -1000 for every robot; the end-game path
returns an all-zeros matrix but never invokes the matcher on it. -/
theorem c6_sentinel_columns (ctx : SchedulerCtx) (samp : RewardSampling)
    (sim : Sim)
    (h : (calculate_robot_assignment ctx samp sim).invoked_matcher = true) :
    ((calculate_robot_assignment ctx samp sim).reward).all
      (fun row => (row.head? == some sentinelReward) &&
        (row.getLast? == some sentinelReward)) = true := by
  unfold calculate_robot_assignment at h ⊢
  rcases hp : pendingIncomplete sim with _ | ⟨t, _ | ⟨t2, ts⟩⟩
  · exact addSentinels_all_sentinel _
  · rw [hp] at h
    exact Bool.noConfusion h
  · exact addSentinels_all_sentinel _

/-- C6 witness: the concrete general-path reward matrix has -1000 in its first
and last column. -/
theorem c6_sentinel_columns_witness :
    ((calculate_robot_assignment ctxOneRobot RewardSampling.deterministic
      simOneActive).reward).all
      (fun row => (row.head? == some sentinelReward) &&
        (row.getLast? == some sentinelReward)) = true :=
  c6_sentinel_columns ctxOneRobot RewardSampling.deterministic simOneActive rfl

/-! ## Scheduler construction (initialize_schedulers.py, sadcher.py 133-155)
and the benchmark loop (benchmark_schedulers.py 25-59) -/

/-- The `checkpoint_path` argument as `load_model_weights` inspects it:
`None`, a non-string value, or a string path. -/
inductive CheckpointVal : Type
  | noneV
  | nonStringV
  | strV (s : String)
  deriving DecidableEq, Repr

/-- The configuration errors of spec section 7: a missing or non-string
checkpoint path (sadcher.py lines 134-137), a checkpoint path `torch.load`
cannot load, or an unknown scheduler-variant name
(initialize_schedulers.py line 42). -/
inductive ConfigError : Type
  | missingCheckpoint
  | checkpointNotString
  | loadFailure
  | unknownScheduler (name : String)
  deriving DecidableEq, Repr

/-- The tags `create_scheduler` can return, one per variant family of
initialize_schedulers.py. -/
inductive SchedulerTag : Type
  | greedy
  | random_bipartite
  | sadcher
  | rl_sadcher
  | stochastic_IL_sadcher
  deriving DecidableEq, Repr

/-- The checkpoint validation of `SadcherScheduler.load_model_weights`
(sadcher.py lines 133-139): `None` and non-string paths raise `ValueError`;
a string path is handed to `torch.load`, modelled by the external `loader`. -/
def load_model_weights (loader : String → Except ConfigError Unit) :
    CheckpointVal → Except ConfigError Unit
  | CheckpointVal.noneV => Except.error ConfigError.missingCheckpoint
  | CheckpointVal.nonStringV => Except.error ConfigError.checkpointNotString
  | CheckpointVal.strV s => loader s

/-- `create_scheduler` (initialize_schedulers.py lines 7-42): dispatch on the
variant name; the model-backed variants run the checkpoint validation inside
their constructor (for `RLSadcherScheduler`, whose source is not under src/,
the construction-time validation is modelled from the spec's ConfigurationError
rule); any other name raises `ValueError`. -/
def create_scheduler (loader : String → Except ConfigError Unit) (name : String)
    (cp : CheckpointVal) : Except ConfigError SchedulerTag :=
  if name = "greedy" then Except.ok SchedulerTag.greedy
  else if name = "random_bipartite" then Except.ok SchedulerTag.random_bipartite
  else if name = "sadcher" then
    (load_model_weights loader cp).map (fun _ => SchedulerTag.sadcher)
  else if name = "rl_sadcher" ∨ name = "rl_sadcher_sampling" then
    (load_model_weights loader cp).map (fun _ => SchedulerTag.rl_sadcher)
  else if name = "stochastic_IL_sadcher" then
    (load_model_weights loader cp).map (fun _ => SchedulerTag.stochastic_IL_sadcher)
  else Except.error (ConfigError.unknownScheduler name)

/-- The names `create_scheduler` accepts. -/
def validSchedulerName (name : String) : Bool :=
  decide (name = "greedy") || decide (name = "random_bipartite") ||
    decide (name = "sadcher") || decide (name = "rl_sadcher") ||
    decide (name = "rl_sadcher_sampling") || decide (name = "stochastic_IL_sadcher")

/-- The names whose construction loads a reward-model checkpoint. -/
def requiresCheckpoint (name : String) : Bool :=
  decide (name = "sadcher") || decide (name = "rl_sadcher") ||
    decide (name = "rl_sadcher_sampling") || decide (name = "stochastic_IL_sadcher")

def exceptIsError : Except ε α → Bool
  | Except.error _ => true
  | Except.ok _ => false

/-- The claim's own characterisation of a configuration error (spec section 7):
an invalid variant name, or — for a model-backed variant — a missing, invalid
or unloadable checkpoint. -/
def configErrorSpec (loader : String → Except ConfigError Unit) (name : String)
    (cp : CheckpointVal) : Bool :=
  if validSchedulerName name = false then true
  else if requiresCheckpoint name then
    match cp with
    | CheckpointVal.noneV => true
    | CheckpointVal.nonStringV => true
    | CheckpointVal.strV s => exceptIsError (loader s)
  else false

/-- The per-run simulation state the benchmark loop reads: simulated timestep,
makespan and done flag (simulator_2D.py is not under src/; the loop body's
effect on the state — scheduler call, `assign_tasks_to_robots`,
`step_until_next_decision_point` — is the abstract `advance` below). -/
structure SimState : Type where
  timestep : ℚ
  makespan : ℚ
  sim_done : Bool
  deriving DecidableEq, Repr

/-- The problem-instance fields the worst-case bound reads: execution
durations `T_e` and the travel-time rows `T_t`. -/
structure ProblemInstance : Type where
  T_e : List ℚ
  T_t : List (List ℚ)

/-- `np.max` over one travel-time row. -/
def rowMax : List ℚ → ℚ
  | [] => 0
  | x :: xs => xs.foldl max x

/-- `worst_case_makespan = np.sum(T_e) + np.sum([np.max(T_t[task]) for task in
range(len(T_e))])` (benchmark_schedulers.py lines 26-28). -/
def worst_case_makespan (pi : ProblemInstance) : ℚ :=
  pi.T_e.sum +
    (((List.range pi.T_e.length).map (fun i => rowMax (pi.T_t.getD i []))).sum)

/-- The `while not sim.sim_done` loop of `run_one_simulation`
(benchmark_schedulers.py lines 41-57), with the loop body up to the bound
check abstracted as `advance`.  Returns (makespan, feasible).  When the check
`sim.timestep > worst_case_makespan` fires, the makespan is overwritten with
the bound, feasibility is set false and the loop breaks.  Fuel bounds the
number of decision points modelled. -/
def runLoop (advance : SimState → SimState) (bound : ℚ) :
    Nat → SimState → ℚ × Bool
  | 0, s => (s.makespan, true)
  | n + 1, s =>
    if s.sim_done then (s.makespan, true)
    else
      let s2 := advance s
      if bound < s2.timestep then (bound, false)
      else runLoop advance bound n s2

/-- `run_one_simulation` (benchmark_schedulers.py lines 25-59): construct the
scheduler — any configuration error surfaces here — then run the decision
loop; the loop itself is total and returns plain values. -/
def run_one_simulation (loader : String → Except ConfigError Unit)
    (advance : SchedulerTag → SimState → SimState) (pi : ProblemInstance)
    (name : String) (cp : CheckpointVal) (fuel : Nat) (s0 : SimState) :
    Except ConfigError (ℚ × Bool) :=
  match create_scheduler loader name cp with
  | Except.error e => Except.error e
  | Except.ok tag => Except.ok (runLoop (advance tag) (worst_case_makespan pi) fuel s0)

/-- C3: whenever a run's loop observes, after stepping, a simulated timestep
strictly beyond the precomputed worst-case bound, `run_one_simulation` returns
cleanly (no exception: an `ok` value) with feasible = false and the makespan
capped at exactly the bound. -/
theorem c3_infeasible_capped (loader : String → Except ConfigError Unit)
    (advance : SchedulerTag → SimState → SimState) (pi : ProblemInstance)
    (name : String) (cp : CheckpointVal) (fuel : Nat) (s0 : SimState)
    (tag : SchedulerTag)
    (hok : create_scheduler loader name cp = Except.ok tag)
    (hrun : s0.sim_done = false)
    (hover : worst_case_makespan pi < (advance tag s0).timestep) :
    run_one_simulation loader advance pi name cp (fuel + 1) s0 =
      Except.ok (worst_case_makespan pi, false) := by
  unfold run_one_simulation
  rw [hok]
  unfold runLoop
  rw [hrun]
  simp only [Bool.false_eq_true, if_false, if_pos hover]

/-- Loader stub for witnesses: every checkpoint loads. -/
def loaderOk : String → Except ConfigError Unit := fun _ => Except.ok ()

/-- Advance stub for witnesses: every decision point consumes 100 time units. -/
def advanceW : SchedulerTag → SimState → SimState :=
  fun _ s => { s with timestep := s.timestep + 100 }

/-- A tiny concrete problem instance: bound = 1 + 2 = 3. -/
def piW : ProblemInstance := { T_e := [1], T_t := [[2]] }

/-- C3 witness: the concrete run overshoots the bound on its first decision
point and is reported infeasible with the capped makespan. -/
theorem c3_infeasible_capped_witness :
    run_one_simulation loaderOk advanceW piW "greedy" CheckpointVal.noneV 1
        { timestep := 0, makespan := 0, sim_done := false } =
      Except.ok (worst_case_makespan piW, false) :=
  c3_infeasible_capped loaderOk advanceW piW "greedy" CheckpointVal.noneV 0
    { timestep := 0, makespan := 0, sim_done := false } SchedulerTag.greedy
    rfl rfl (by
      have hb : worst_case_makespan piW = 3 := by
        unfold worst_case_makespan piW rowMax
        simp [List.range_succ]
        norm_num
      rw [hb]
      show (3 : ℚ) < 0 + 100
      norm_num)

/-- C8: configuration errors are exactly the construction-time errors —
`run_one_simulation` fails precisely when `create_scheduler` fails (so a
configuration error is fatal before the decision loop starts and can never
arise mid-run), and `create_scheduler` fails precisely on an invalid variant
name or, for a model-backed variant, a missing/invalid/unloadable checkpoint. -/
theorem c8_config_errors_at_construction
    (loader : String → Except ConfigError Unit)
    (advance : SchedulerTag → SimState → SimState) (pi : ProblemInstance)
    (name : String) (cp : CheckpointVal) (fuel : Nat) (s0 : SimState) :
    exceptIsError (run_one_simulation loader advance pi name cp fuel s0) =
        exceptIsError (create_scheduler loader name cp) ∧
      exceptIsError (create_scheduler loader name cp) =
        configErrorSpec loader name cp := by
  constructor
  · unfold run_one_simulation
    cases hc : create_scheduler loader name cp <;> rfl
  · unfold create_scheduler configErrorSpec validSchedulerName requiresCheckpoint
    by_cases h1 : name = "greedy"
    · simp [h1, exceptIsError]
    · by_cases h2 : name = "random_bipartite"
      · simp [h1, h2, exceptIsError]
      · by_cases h3 : name = "sadcher"
        · cases cp with
          | noneV => simp [h1, h2, h3, load_model_weights, exceptIsError, Except.map]
          | nonStringV => simp [h1, h2, h3, load_model_weights, exceptIsError, Except.map]
          | strV s => cases hls : loader s <;>
              simp [h1, h2, h3, load_model_weights, exceptIsError, Except.map, hls]
        · by_cases h4 : name = "rl_sadcher"
          · cases cp with
            | noneV => simp [h1, h2, h3, h4, load_model_weights, exceptIsError, Except.map]
            | nonStringV => simp [h1, h2, h3, h4, load_model_weights, exceptIsError, Except.map]
            | strV s => cases hls : loader s <;>
                simp [h1, h2, h3, h4, load_model_weights, exceptIsError, Except.map, hls]
          · by_cases h5 : name = "rl_sadcher_sampling"
            · cases cp with
              | noneV => simp [h1, h2, h3, h4, h5, load_model_weights, exceptIsError, Except.map]
              | nonStringV => simp [h1, h2, h3, h4, h5, load_model_weights, exceptIsError, Except.map]
              | strV s => cases hls : loader s <;>
                  simp [h1, h2, h3, h4, h5, load_model_weights, exceptIsError, Except.map, hls]
            · by_cases h6 : name = "stochastic_IL_sadcher"
              · cases cp with
                | noneV => simp [h1, h2, h3, h4, h5, h6, load_model_weights, exceptIsError, Except.map]
                | nonStringV => simp [h1, h2, h3, h4, h5, h6, load_model_weights, exceptIsError, Except.map]
                | strV s => cases hls : loader s <;>
                    simp [h1, h2, h3, h4, h5, h6, load_model_weights, exceptIsError, Except.map, hls]
              · simp [h1, h2, h3, h4, h5, h6, exceptIsError]

/-! ## C7: feature extraction (sadcher.py lines 108-131) -/

/-- The task half of `extract_task_robot_features` (sadcher.py lines 109-114):
the feature vectors of the slice `sim.tasks[1:-2]` — drop the first element and
the last two.  The per-task feature vector (Task class, not under src/) is the
abstract `fv`. -/
def extract_task_features (fv : Task → α) (sim : Sim) : List α :=
  (((sim.tasks.drop 1).dropLast).dropLast).map fv

/-- The robot half of `extract_task_robot_features` (sadcher.py lines 120-125):
a feature vector per robot of the snapshot. -/
def extract_robot_features (gv : Robot → β) (sim : Sim) : List β :=
  sim.robots.map gv

/-- The claim's version of the task half: features for every task except the
two sentinels, which bound the list (first and last element, spec section 3). -/
def extract_task_features_claim (fv : Task → α) (sim : Sim) : List α :=
  ((sim.tasks.drop 1).dropLast).map fv

/-- A four-task snapshot: start sentinel 0, real tasks 1 and 2, end sentinel 3. -/
def simFour : Sim :=
  { robots := [{ robot_id := 0, available := true, current_task := none }]
    tasks := [{ task_id := 0, status := TaskStatus.pending },
              { task_id := 1, status := TaskStatus.pending },
              { task_id := 2, status := TaskStatus.pending },
              { task_id := 3, status := TaskStatus.pending }] }

/-- C7 counterexample: on a snapshot with two real tasks between the sentinels,
the code extracts features for task 1 only ([1]), while the claim's
"every task except the two sentinels" demands tasks 1 and 2 ([1, 2]):
the slice `[1:-2]` drops the last real task as well. -/
theorem c7_counterexample :
    extract_task_features Task.task_id simFour ≠
      extract_task_features_claim Task.task_id simFour := by
  decide

/-- C7 (amended): on the general path, task features are extracted for the
tasks at positions 1 through n-3 of the n-task snapshot — every task except
the first and the last two (one task more than the two sentinels the claim
names) — and robot features for every robot of the snapshot. -/
theorem c7_feature_extraction (fv : Task → α) (gv : Robot → β) (sim : Sim) :
    (extract_task_features fv sim).length = sim.tasks.length - 3 ∧
      (∀ i : Nat, i < sim.tasks.length - 3 →
        (extract_task_features fv sim)[i]? = (sim.tasks[i + 1]?).map fv) ∧
      extract_robot_features gv sim = sim.robots.map gv := by
  refine ⟨?_, ?_, rfl⟩
  · unfold extract_task_features
    rw [List.length_map, List.length_dropLast, List.length_dropLast,
      List.length_drop]
    omega
  · intro i hi
    unfold extract_task_features
    rw [List.getElem?_map]
    rw [List.getElem?_dropLast, List.length_dropLast, List.length_drop]
    rw [if_pos (show i < sim.tasks.length - 1 - 1 - 1 by omega)]
    rw [List.getElem?_dropLast, List.length_drop]
    rw [if_pos (show i < sim.tasks.length - 1 - 1 by omega)]
    rw [List.getElem?_drop]
    rw [Nat.add_comm 1 i]

/-- C7 witness: on the concrete four-task snapshot the code yields exactly one
task feature, the one of task 1. -/
theorem c7_feature_extraction_witness :
    (extract_task_features Task.task_id simFour).length =
        simFour.tasks.length - 3 ∧
      (extract_task_features Task.task_id simFour)[0]? =
        (simFour.tasks[1]?).map Task.task_id := by
  have h := c7_feature_extraction Task.task_id Robot.robot_id simFour
  exact ⟨h.1, h.2.1 0 (by decide)⟩

/-! ## C4: the return shape of the variants (benchmark_schedulers.py 43-47) -/

/-- What one `calculate_robot_assignment` call hands back to the benchmark
loop: either a bare Instantaneous Schedule, or — for the Sadcher family —
a (reward matrix, schedule) pair that the loop unpacks separately
(benchmark_schedulers.py lines 43-47). -/
inductive CalcReturn : Type
  | scheduleOnly (s : List (Nat × Nat))
  | rewardAndSchedule (m : List (List ℚ)) (s : List (Nat × Nat))

def CalcReturn.isScheduleOnly : CalcReturn → Bool
  | CalcReturn.scheduleOnly _ => true
  | CalcReturn.rewardAndSchedule _ _ => false

/-- The dependencies of the benchmark's variants.  The greedy and
random-bipartite assignment rules (their files are not under src/) are abstract
functions returning the bare schedule the benchmark loop consumes on its
non-Sadcher branch (benchmark_schedulers.py line 47). -/
structure VariantDeps : Type where
  ctx : SchedulerCtx
  stddev : ℚ
  noise : Nat → Nat → ℚ
  greedy_assignment : Sim → List (Nat × Nat)
  random_assignment : Sim → List (Nat × Nat)

/-- The variants the benchmark loop runs (benchmark_schedulers.py line 101 and
the stochastic option). -/
inductive BenchVariant : Type
  | greedy
  | random_bipartite
  | sadcher
  | stochastic_IL_sadcher
  deriving DecidableEq, Repr

/-- `isinstance(scheduler, SadcherScheduler)` (benchmark_schedulers.py
line 43): the deterministic Sadcher and its stochastic subclass. -/
def BenchVariant.isSadcherFamily : BenchVariant → Bool
  | BenchVariant.sadcher => true
  | BenchVariant.stochastic_IL_sadcher => true
  | _ => false

/-- `calculate_robot_assignment` of each variant, with its actual return
shape: the Sadcher family returns the tuple
`(predicted_reward, Instantaneous_Schedule)` (sadcher.py lines 56-58 and 106);
the other variants return the schedule alone. -/
def variant_calculate_robot_assignment (v : VariantDeps) :
    BenchVariant → Sim → CalcReturn
  | BenchVariant.greedy, sim => CalcReturn.scheduleOnly (v.greedy_assignment sim)
  | BenchVariant.random_bipartite, sim =>
      CalcReturn.scheduleOnly (v.random_assignment sim)
  | BenchVariant.sadcher, sim =>
      CalcReturn.rewardAndSchedule
        (calculate_robot_assignment v.ctx RewardSampling.deterministic sim).reward
        (calculate_robot_assignment v.ctx RewardSampling.deterministic sim).schedule
  | BenchVariant.stochastic_IL_sadcher, sim =>
      CalcReturn.rewardAndSchedule
        (calculate_robot_assignment v.ctx
          (RewardSampling.stochastic v.stddev v.noise) sim).reward
        (calculate_robot_assignment v.ctx
          (RewardSampling.stochastic v.stddev v.noise) sim).schedule

/-- Concrete variant dependencies for the counterexample. -/
def vdW : VariantDeps :=
  { ctx := ctxOneRobot
    stddev := 0
    noise := fun _ _ => 0
    greedy_assignment := fun _ => []
    random_assignment := fun _ => [] }

/-- C4 counterexample: the Sadcher variant's `calculate_robot_assignment` does
not return a Schedule as its result — it returns the
(reward matrix, schedule) pair, so the contract is not uniform across
variants. -/
theorem c4_counterexample :
    (variant_calculate_robot_assignment vdW BenchVariant.sadcher
      simEndgame).isScheduleOnly = false := rfl

/-- C4 (amended): every variant produces exactly one Instantaneous Schedule
per call, but the return shape differs by family: the Sadcher family returns a
(reward matrix, schedule) pair, all other variants return the schedule alone —
which is exactly the distinction the benchmark driver's
`isinstance(scheduler, SadcherScheduler)` branch unpacks. -/
theorem c4_return_shape (v : VariantDeps) (k : BenchVariant) (sim : Sim) :
    (variant_calculate_robot_assignment v k sim).isScheduleOnly =
      !(k.isSadcherFamily) := by
  cases k <;> rfl

end SadcherSpec
